import Mathlib

/-!
Shallow embedding of the crypto-orderbook exchange connectors
(Binance futures, Bybit futures, Hyperliquid, Kraken spot) together
with proofs about their read loops, reconnection logic, lifecycle
handling and symbol conversion.

Conventions of the embedding:
* Go strings are Lean `String`s (or `List Char` where character-level
  reasoning is needed).
* `time.Time` values are carried as integer unix-millisecond stamps;
  durations appear as integer second counts.
* A Go channel that can be closed is represented by a `Bool` flag
  (`true` = closed); closing an already-closed channel is the Go
  runtime panic, represented with `Except`.
* A connector's read loop is a function from the list of events the
  loop would observe (in order) to a result record; a `defer`red
  action is performed on every exit path of the modelled function,
  exactly as in Go.
-/

namespace Exchange

/-- Venue identity tags (internal/exchange: ExchangeName constants). -/
inductive ExchangeName where
  | Binancef
  | Bybitf
  | Hyperliquidf
  | Kraken
deriving DecidableEq, Repr

/-- Canonical price level: decimal strings for price and quantity. -/
structure PriceLevel where
  price : String
  quantity : String
deriving DecidableEq, Repr

/-- Canonical snapshot (internal/exchange types, as used by the connectors). -/
structure Snapshot where
  exchange : ExchangeName
  symbol : String
  lastUpdateID : Int
  bids : List PriceLevel
  asks : List PriceLevel
  timestampMs : Int
deriving DecidableEq, Repr

/-- Canonical incremental update. The `isSnapshot` field is the
`IsSnapshot bool` member of the Go `DepthUpdate` struct; a Go struct
literal that does not mention it leaves it at the zero value `false`. -/
structure DepthUpdate where
  exchange : ExchangeName
  symbol : String
  eventTimeMs : Int
  firstUpdateID : Int
  finalUpdateID : Int
  prevUpdateID : Int
  bids : List PriceLevel
  asks : List PriceLevel
  isSnapshot : Bool
deriving DecidableEq, Repr

end Exchange

/-- Result of running a connector read loop on a finite list of observed
events. `updateChanClosed` records whether the loop's exit path closed
the connector's canonical update channel (Binance, Bybit and
Hyperliquid read loops carry a deferred close of that channel, Kraken's
does not). `reconnectTriggered` records whether the loop spawned the
connector's reconnect routine on the way out. -/
structure LoopResult where
  emitted : List Exchange.DepthUpdate
  exited : Bool
  updateChanClosed : Bool
  reconnectTriggered : Bool
  errorCountDelta : Nat
deriving DecidableEq, Repr

/-- What one tick of a connector's periodic health-probe loop does:
keep looping, stop the loop without further action, or spawn the
reconnect routine (and stop). -/
inductive ProbeAction where
  | keepRunning
  | stopLoop
  | triggerReconnect
deriving DecidableEq, Repr

namespace Binance

/-- Wire-format depth frame of the Binance futures stream, as consumed by
FuturesExchange.convertDepthUpdate: symbol, event time, first/final/prev
update ids, and raw (price, quantity) string pairs. -/
structure Frame where
  symbol : String
  eventTime : Int
  firstUpdateID : Int
  finalUpdateID : Int
  prevUpdateID : Int
  bids : List (String × String)
  asks : List (String × String)
deriving DecidableEq, Repr

/-- FuturesExchange.convertDepthUpdate (binance): copies every field of the
venue frame into the canonical update; no field of the sequencing triple is
altered and `IsSnapshot` is absent from the struct literal (zero value). -/
def convertDepthUpdate (f : Frame) : Exchange.DepthUpdate where
  exchange := Exchange.ExchangeName.Binancef
  symbol := f.symbol
  eventTimeMs := f.eventTime
  firstUpdateID := f.firstUpdateID
  finalUpdateID := f.finalUpdateID
  prevUpdateID := f.prevUpdateID
  bids := f.bids.map fun p => ⟨p.1, p.2⟩
  asks := f.asks.map fun p => ⟨p.1, p.2⟩
  isSnapshot := false

/-- Events observed by the Binance read loop. `readFail` is
`wsConn.ReadJSON` returning an error, which happens both for transport
failures and for frames that are not valid JSON. -/
inductive Event where
  | ctxDone
  | doneSignal
  | readFail
  | frame (f : Frame)
deriving DecidableEq, Repr

/-- FuturesExchange.readMessages (binance, lines 171-206). The function
carries `defer close(e.updateChan)`, so every exit path reports
`updateChanClosed = true`. The connector has no reconnect routine, so no
path sets `reconnectTriggered`. A send on the full channel is modelled as
a successful send (buffering is not modelled). -/
def readLoop : List Event → LoopResult
  | [] => ⟨[], false, false, false, 0⟩
  | Event.ctxDone :: _ => ⟨[], true, true, false, 0⟩
  | Event.doneSignal :: _ => ⟨[], true, true, false, 0⟩
  | Event.readFail :: _ => ⟨[], true, true, false, 1⟩
  | Event.frame f :: es =>
    let r := readLoop es
    ⟨convertDepthUpdate f :: r.emitted, r.exited, r.updateChanClosed,
      r.reconnectTriggered, r.errorCountDelta⟩

end Binance

namespace Hyperliquid

/-- One level of a Hyperliquid l2Book frame (WsLevel): price and size
decimal strings. -/
structure WsLevel where
  px : String
  sz : String
deriving DecidableEq, Repr

/-- Hyperliquid WebSocket book frame (WsBook): coin, unix-millisecond
time, and `Levels[0]` (bids) / `Levels[1]` (asks). -/
structure WsBook where
  coin : String
  time : Int
  bidLevels : List WsLevel
  askLevels : List WsLevel
deriving DecidableEq, Repr

/-- FuturesExchange.convertDepthUpdate (hyperliquid, lines 678-705).
The frame time doubles as first and final id, `PrevUpdateID` is
approximated as `time - 1`, and the struct literal does not mention
`IsSnapshot`, so the canonical update carries the zero value `false`. -/
def convertDepthUpdate (u : WsBook) : Exchange.DepthUpdate where
  exchange := Exchange.ExchangeName.Hyperliquidf
  symbol := u.coin
  eventTimeMs := u.time
  firstUpdateID := u.time
  finalUpdateID := u.time
  prevUpdateID := u.time - 1
  bids := u.bidLevels.map fun l => ⟨l.px, l.sz⟩
  asks := u.askLevels.map fun l => ⟨l.px, l.sz⟩
  isSnapshot := false

/-- Events observed by the Hyperliquid read loop. `readFail` is
`conn.ReadJSON` returning an error (transport failure or a frame that is
not valid JSON); `l2BookUndecodable` is an "l2Book" message whose payload
fails the marshal/unmarshal round trip into WsBook. -/
inductive Event where
  | ctxDone
  | doneSignal
  | connNil
  | readFail
  | subscriptionResponse
  | l2BookUndecodable
  | l2Book (b : WsBook)
  | otherChannel
deriving DecidableEq, Repr

/-- FuturesExchange.readMessages (hyperliquid, lines 580-647). The
function carries `defer close(e.updateChan)`, so every exit path closes
the update channel; a nil connection or a ReadJSON error additionally
runs `go e.reconnect()`. Undecodable l2Book payloads and
subscription-response frames are logged/skipped and the loop continues. -/
def readLoop : List Event → LoopResult
  | [] => ⟨[], false, false, false, 0⟩
  | Event.ctxDone :: _ => ⟨[], true, true, false, 0⟩
  | Event.doneSignal :: _ => ⟨[], true, true, false, 0⟩
  | Event.connNil :: _ => ⟨[], true, true, true, 0⟩
  | Event.readFail :: _ => ⟨[], true, true, true, 1⟩
  | Event.subscriptionResponse :: es => readLoop es
  | Event.l2BookUndecodable :: es => readLoop es
  | Event.otherChannel :: es => readLoop es
  | Event.l2Book b :: es =>
    let r := readLoop es
    ⟨convertDepthUpdate b :: r.emitted, r.exited, r.updateChanClosed,
      r.reconnectTriggered, r.errorCountDelta⟩

/-- Ticker period of FuturesExchange.pingLoop (hyperliquid, line 446):
`time.NewTicker(30 * time.Second)`. -/
def pingCadenceSec : Nat := 30

/-- What one tick of FuturesExchange.pingLoop (hyperliquid, lines
455-461) decides: if a message has ever been seen (`LastPing` nonzero)
and more than 60 seconds have passed since, spawn the reconnect routine
(and stop the loop); otherwise keep looping. -/
def pingLoopTick (lastPingSet : Bool) (secsSinceLastPing : Nat) : ProbeAction :=
  if lastPingSet && decide (60 < secsSinceLastPing) then ProbeAction.triggerReconnect
  else ProbeAction.keepRunning

/-- Backoff computed inside FuturesExchange.reconnect (hyperliquid,
lines 499-507) before attempt number `attempt`: nothing before the
first attempt, then `(attempt-1) * 5` seconds capped at 30. -/
def backoffBeforeAttempt (attempt : Nat) : Nat :=
  if 1 < attempt then
    let b := (attempt - 1) * 5
    if 30 < b then 30 else b
  else 0

/-- The attempt loop of FuturesExchange.reconnect (hyperliquid, lines
485-517), with `ok attempt` standing for "Connect succeeded on this
attempt". Returns the sleeps performed in order, the number of attempts
made, and whether the routine reconnected. The shutdown checks at the
top of each iteration are not modelled (no shutdown during the run). -/
def reconnectLoop (ok : Nat → Bool) : Nat → Nat → List Nat × Nat × Bool
  | _, 0 => ([], 0, false)
  | attempt, fuel + 1 =>
    let sleeps := if 1 < attempt then [backoffBeforeAttempt attempt] else []
    if ok attempt then (sleeps, 1, true)
    else
      let r := reconnectLoop ok (attempt + 1) fuel
      (sleeps ++ r.1, r.2.1 + 1, r.2.2)

/-- FuturesExchange.reconnect (hyperliquid): `maxAttempts := 10`,
attempts numbered from 1; after the loop the routine just logs and
returns (gives up). -/
def reconnect (ok : Nat → Bool) : List Nat × Nat × Bool :=
  reconnectLoop ok 1 10

end Hyperliquid

namespace Bybit

/-- A Bybit orderbook WebSocket message, flattened: `Topic`, `Type`,
`TS`, and the `Data` member's `Symbol`, `SeqNum` and level arrays. -/
structure Frame where
  topic : String
  typ : String
  ts : Int
  symbol : String
  seqNum : Int
  bids : List (String × String)
  asks : List (String × String)
deriving DecidableEq, Repr

/-- Mutable connector state touched by the Bybit read path: `lastSeq`
(zero-initialised), `snapshotReceived`, and the stored snapshot. -/
structure ConnState where
  lastSeq : Int
  snapshotReceived : Bool
  storedSnapshot : Option Exchange.Snapshot
deriving DecidableEq, Repr

/-- State of a freshly constructed Bybit connector (Go zero values). -/
def initialConnState : ConnState := ⟨0, false, none⟩

/-- FuturesExchange.storeSnapshot (bybit, lines 232-262): converts the
message into a canonical snapshot keyed by `SeqNum` and records it
together with `lastSeq := SeqNum`. -/
def mkSnapshot (m : Frame) : Exchange.Snapshot where
  exchange := Exchange.ExchangeName.Bybitf
  symbol := m.symbol
  lastUpdateID := m.seqNum
  bids := m.bids.map fun p => ⟨p.1, p.2⟩
  asks := m.asks.map fun p => ⟨p.1, p.2⟩
  timestampMs := m.ts

/-- FuturesExchange.convertDepthUpdate (bybit, lines 265-297) given the
`prevSeq` read from `e.lastSeq`: first and final ids are the frame's
`SeqNum`, `PrevUpdateID` is `prevSeq`. `IsSnapshot` is absent from the
struct literal (zero value). -/
def convertDepthUpdate (m : Frame) (prevSeq : Int) : Exchange.DepthUpdate where
  exchange := Exchange.ExchangeName.Bybitf
  symbol := m.symbol
  eventTimeMs := m.ts
  firstUpdateID := m.seqNum
  finalUpdateID := m.seqNum
  prevUpdateID := prevSeq
  bids := m.bids.map fun p => ⟨p.1, p.2⟩
  asks := m.asks.map fun p => ⟨p.1, p.2⟩
  isSnapshot := false

/-- One frame through the body of FuturesExchange.readMessages (bybit,
lines 202-226): non-orderbook frames (empty topic or symbol) are
skipped; the first "snapshot"-typed frame is stored via storeSnapshot
(which also sets `lastSeq`); every surviving frame is converted with
`prevSeq := e.lastSeq` and `lastSeq` is advanced to the frame's
`SeqNum`. -/
def processFrame (s : ConnState) (m : Frame) : ConnState × Option Exchange.DepthUpdate :=
  if m.topic = "" ∨ m.symbol = "" then (s, none)
  else
    let s1 : ConnState :=
      if m.typ = "snapshot" ∧ ¬ s.snapshotReceived then
        ⟨m.seqNum, true, some (mkSnapshot m)⟩
      else s
    let prevSeq := s1.lastSeq
    (⟨m.seqNum, s1.snapshotReceived, s1.storedSnapshot⟩,
      some (convertDepthUpdate m prevSeq))

/-- Events observed by the Bybit read loop; `readFail` is
`wsConn.ReadJSON` returning an error. -/
inductive Event where
  | ctxDone
  | doneSignal
  | readFail
  | frame (m : Frame)
deriving DecidableEq, Repr

/-- FuturesExchange.readMessages (bybit, lines 183-229). Like the
Binance loop it carries `defer close(e.updateChan)` and has no
reconnect routine; frame handling threads the connector state. -/
def readLoopFrom (s : ConnState) : List Event → LoopResult
  | [] => ⟨[], false, false, false, 0⟩
  | Event.ctxDone :: _ => ⟨[], true, true, false, 0⟩
  | Event.doneSignal :: _ => ⟨[], true, true, false, 0⟩
  | Event.readFail :: _ => ⟨[], true, true, false, 1⟩
  | Event.frame m :: es =>
    match processFrame s m with
    | (s1, some u) =>
      let r := readLoopFrom s1 es
      ⟨u :: r.emitted, r.exited, r.updateChanClosed, r.reconnectTriggered,
        r.errorCountDelta⟩
    | (s1, none) => readLoopFrom s1 es

/-- The connector state after the Bybit read path has consumed a list
of frames. -/
def runState (s : ConnState) (ms : List Frame) : ConnState :=
  ms.foldl (fun s m => (processFrame s m).1) s

/-- The canonical updates the Bybit connector converts out of a list of
frames (the emissions of `readLoopFrom` on a pure frame stream). -/
def convertAll (s : ConnState) (ms : List Frame) : List Exchange.DepthUpdate :=
  (readLoopFrom s (ms.map Event.frame)).emitted

end Bybit

namespace Kraken

/-- A level of a Kraken book message. In Go the price and quantity are
float64 rendered with the fixed format `%.10f`; the rendered decimal
strings are what this model carries (binary floating point itself is
not modelled). -/
structure BookLevel where
  price : String
  qty : String
deriving DecidableEq, Repr

/-- The `Data[0]` member of a Kraken book WSMessage. -/
structure BookData where
  symbol : String
  bids : List BookLevel
  asks : List BookLevel
  timestamp : String
deriving DecidableEq, Repr

/-- Mutable connector state touched by the Kraken read path. -/
structure ConnState where
  snapshotReceived : Bool
  storedSnapshot : Option Exchange.Snapshot
deriving DecidableEq, Repr

/-- State of a freshly constructed Kraken connector. -/
def initialConnState : ConnState := ⟨false, none⟩

/-- SpotExchange.storeSnapshot (kraken, lines 287-316): Kraken exposes no
update ids, so `LastUpdateID` is 0; the observation time (Go
`time.Now()`) is not modelled and carried as 0. -/
def mkSnapshot (d : BookData) : Exchange.Snapshot where
  exchange := Exchange.ExchangeName.Kraken
  symbol := d.symbol
  lastUpdateID := 0
  bids := d.bids.map fun l => ⟨l.price, l.qty⟩
  asks := d.asks.map fun l => ⟨l.price, l.qty⟩
  timestampMs := 0

/-- SpotExchange.convertDepthUpdate (kraken, lines 319-353): all three
sequencing ids are hard-coded to 0 and `IsSnapshot` is absent from the
struct literal (zero value). The event-time parse of the RFC3339
timestamp is not modelled and carried as 0. -/
def convertDepthUpdate (d : BookData) : Exchange.DepthUpdate where
  exchange := Exchange.ExchangeName.Kraken
  symbol := d.symbol
  eventTimeMs := 0
  firstUpdateID := 0
  finalUpdateID := 0
  prevUpdateID := 0
  bids := d.bids.map fun l => ⟨l.price, l.qty⟩
  asks := d.asks.map fun l => ⟨l.price, l.qty⟩
  isSnapshot := false

/-- Events observed by the Kraken read loop. Unlike the ReadJSON-based
loops, Kraken reads raw bytes (`conn.ReadMessage`) and decodes them
itself, so a frame that decodes as none of the known shapes is a
separate `undecodable` event, distinct from a transport `readErr`. -/
inductive Event where
  | ctxDone
  | doneSignal
  | connNil
  | readErr
  | subscribeResponse (success : Bool)
  | pong
  | heartbeat
  | undecodable
  | nonBook
  | book (typ : String) (d : BookData)
deriving DecidableEq, Repr

/-- SpotExchange.readMessages (kraken, lines 192-284). The deferred
actions update only the health record — the source comment reads
"Don't close updateChan here since we may reconnect and reuse it" — so
no exit path closes the update channel. A nil connection or a read
error spawns the reconnect routine. Undecodable frames are skipped
silently; book frames of type "snapshot" are stored once; only frames
of type "update" are converted and emitted. -/
def readLoopFrom (s : ConnState) : List Event → LoopResult
  | [] => ⟨[], false, false, false, 0⟩
  | Event.ctxDone :: _ => ⟨[], true, false, false, 0⟩
  | Event.doneSignal :: _ => ⟨[], true, false, false, 0⟩
  | Event.connNil :: _ => ⟨[], true, false, true, 0⟩
  | Event.readErr :: _ => ⟨[], true, false, true, 1⟩
  | Event.subscribeResponse _ :: es => readLoopFrom s es
  | Event.pong :: es => readLoopFrom s es
  | Event.heartbeat :: es => readLoopFrom s es
  | Event.undecodable :: es => readLoopFrom s es
  | Event.nonBook :: es => readLoopFrom s es
  | Event.book typ d :: es =>
    let s1 : ConnState :=
      if typ = "snapshot" ∧ ¬ s.snapshotReceived then ⟨true, some (mkSnapshot d)⟩
      else s
    if typ = "update" then
      let r := readLoopFrom s1 es
      ⟨convertDepthUpdate d :: r.emitted, r.exited, r.updateChanClosed,
        r.reconnectTriggered, r.errorCountDelta⟩
    else readLoopFrom s1 es

/-- Ticker period of SpotExchange.pingLoop (kraken, line 357):
`time.NewTicker(30 * time.Second)`. -/
def pingCadenceSec : Nat := 30

/-- What one tick of SpotExchange.pingLoop (kraken, lines 367-391)
decides: with a live connection it sends a ping and keeps looping; if
the connection is nil or the write fails it stops the loop — the source
comment reads "Don't reconnect here, let readMessages handle it". The
tick never examines message staleness and never spawns the reconnect
routine. -/
def pingLoopTick (connPresent : Bool) (writeOk : Bool) : ProbeAction :=
  if !connPresent then ProbeAction.stopLoop
  else if writeOk then ProbeAction.keepRunning
  else ProbeAction.stopLoop

/-- Backoff computed in SpotExchange.reconnect (kraken, lines 450-455)
after a failed attempt number `attempt`: `attempt * 5` seconds capped
at 30. -/
def backoffAfterAttempt (attempt : Nat) : Nat :=
  let b := attempt * 5
  if 30 < b then 30 else b

/-- The attempt loop of SpotExchange.reconnect (kraken, lines 420-457):
an attempt that succeeds returns at once; a failed attempt sleeps
`backoffAfterAttempt` and continues. Returns the sleeps performed, the
number of attempts made, and whether the routine reconnected. -/
def reconnectLoop (ok : Nat → Bool) : Nat → Nat → List Nat × Nat × Bool
  | _, 0 => ([], 0, false)
  | attempt, fuel + 1 =>
    if ok attempt then ([], 1, true)
    else
      let r := reconnectLoop ok (attempt + 1) fuel
      (backoffAfterAttempt attempt :: r.1, r.2.1 + 1, r.2.2)

/-- SpotExchange.reconnect (kraken): an unconditional 5 second sleep
(line 416) precedes the loop of `maxAttempts := 10` attempts; after the
loop the routine logs "giving up" and returns. -/
def reconnect (ok : Nat → Bool) : List Nat × Nat × Bool :=
  let r := reconnectLoop ok 1 10
  (5 :: r.1, r.2.1, r.2.2)

/-- The panic raised by the Go runtime on `close` of a closed channel. -/
inductive GoPanic where
  | closeOfClosedChannel
deriving DecidableEq, Repr

/-- The connector state that SpotExchange.Close (kraken, lines 114-145)
reads and writes. -/
structure CloseState where
  ctxCancelled : Bool
  doneClosed : Bool
  wsConnPresent : Bool
  connected : Bool
  updateChanClosed : Bool
deriving DecidableEq, Repr

/-- State of a Kraken connector after construction and a successful
Connect: context live, done open, socket present, update channel open. -/
def connectedState : CloseState := ⟨false, false, true, true, false⟩

/-- SpotExchange.Close (kraken, lines 114-145): cancel the context,
close `done` under a select guard (no-op when already closed), send the
transport close and mark disconnected when a socket is present, and
finally run the unguarded `close(e.updateChan)` — which is the Go
panic when the channel is already closed. -/
def Close (s : CloseState) : Except GoPanic CloseState :=
  let s := { s with ctxCancelled := true }
  let s := if s.doneClosed then s else { s with doneClosed := true }
  let s := if s.wsConnPresent then { s with connected := false } else s
  if s.updateChanClosed then Except.error GoPanic.closeOfClosedChannel
  else Except.ok { s with updateChanClosed := true }

end Kraken

namespace ReconnectGate

/-- `atomic.Bool.CompareAndSwap(false, true)`: returns the new flag
value and whether the swap happened. -/
def compareAndSwapFT (flag : Bool) : Bool × Bool :=
  if flag = false then (true, true) else (flag, false)

/-- Events at the reconnect gate shared by the Hyperliquid (lines
467-473) and Kraken (lines 397-403) reconnect routines: a trigger is
any call of `reconnect()` (read error, nil connection, or heartbeat
timeout), which enters the routine only if the compare-and-swap on
`e.reconnecting` succeeds; a finish is a running routine returning,
whose `defer e.reconnecting.Store(false)` releases the flag. -/
inductive Event where
  | trigger
  | finish
deriving DecidableEq, Repr

/-- Gate state: the `reconnecting` atomic flag and how many reconnect
routines are past the gate and not yet finished. -/
structure State where
  reconnecting : Bool
  inFlight : Nat
deriving DecidableEq, Repr

/-- One gate event: a trigger runs the compare-and-swap and enters only
on success; a finish (possible only while a routine runs) stores
`false` and releases one routine. -/
def step (s : State) : Event → State
  | Event.trigger =>
    let r := compareAndSwapFT s.reconnecting
    if r.2 then ⟨r.1, s.inFlight + 1⟩ else ⟨r.1, s.inFlight⟩
  | Event.finish =>
    if 0 < s.inFlight then ⟨false, s.inFlight - 1⟩ else s

/-- The gate run from the initial state (flag clear, nothing in
flight) over a list of events. -/
def run (es : List Event) : State :=
  es.foldl step ⟨false, 0⟩

end ReconnectGate

/-- Whether a connector's Connect spawns a periodic health-probe loop
alongside its read loop: Binance Connect (lines 74-92) and Bybit
Connect (lines 73-105) run only `go e.readMessages()`; Hyperliquid
(lines 373-409) and Kraken (lines 74-111) additionally run
`go e.pingLoop()`. -/
def connectSpawnsProbeLoop : Exchange.ExchangeName → Bool
  | Exchange.ExchangeName.Binancef => false
  | Exchange.ExchangeName.Bybitf => false
  | Exchange.ExchangeName.Hyperliquidf => true
  | Exchange.ExchangeName.Kraken => true

/-- The probe cadence of the connectors that have a probe loop (both
tickers fire every 30 s), `none` for those that have none. -/
def probeCadenceSec : Exchange.ExchangeName → Option Nat
  | Exchange.ExchangeName.Binancef => none
  | Exchange.ExchangeName.Bybitf => none
  | Exchange.ExchangeName.Hyperliquidf => some Hyperliquid.pingCadenceSec
  | Exchange.ExchangeName.Kraken => some Kraken.pingCadenceSec

namespace GoStrings

/-- A Go string, modelled at character granularity. -/
abbrev GoStr := List Char

/-- `strings.ToUpper` (the connectors apply it to ASCII ticker
symbols; it is modelled as the character-wise basic-latin upcase). -/
def toUpperStr (s : GoStr) : GoStr := s.map Char.toUpper

/-- `strings.Contains(s, string(c))` for a single character. -/
def containsRune (s : GoStr) (c : Char) : Bool := s.contains c

/-- `strings.HasSuffix s suf`. -/
def hasSuffix (s suf : GoStr) : Bool := suf.isSuffixOf s

/-- `strings.TrimSuffix s suf`: drops the suffix when present,
otherwise returns the string unchanged. -/
def trimSuffix (s suf : GoStr) : GoStr :=
  if hasSuffix s suf then s.take (s.length - suf.length) else s

end GoStrings

namespace Kraken

open GoStrings

/-- convertToKrakenSymbol (kraken, lines 464-499): inputs with a slash
are uppercased and returned; otherwise the input is reassigned to its
uppercase form (inlined here as `toUpperStr symbol`) and matched
against the suffixes USDT, USD (with a redundant not-USDT guard), EUR,
GBP in that order, rewriting `baseSUFFIX` to `base/QUOTE`; anything
else is returned uppercased as-is. -/
def convertToKrakenSymbol (symbol : GoStr) : GoStr :=
  if containsRune symbol '/' then toUpperStr symbol
  else if hasSuffix (toUpperStr symbol) ("USDT".toList) then
    trimSuffix (toUpperStr symbol) ("USDT".toList) ++ ("/USD".toList)
  else if hasSuffix (toUpperStr symbol) ("USD".toList) &&
      !(hasSuffix (toUpperStr symbol) ("USDT".toList)) then
    trimSuffix (toUpperStr symbol) ("USD".toList) ++ ("/USD".toList)
  else if hasSuffix (toUpperStr symbol) ("EUR".toList) then
    trimSuffix (toUpperStr symbol) ("EUR".toList) ++ ("/EUR".toList)
  else if hasSuffix (toUpperStr symbol) ("GBP".toList) then
    trimSuffix (toUpperStr symbol) ("GBP".toList) ++ ("/GBP".toList)
  else toUpperStr symbol

/-- The symbol conversion exactly as the claim words it: a slashed
input is uppercased and returned unchanged; a slash-free input whose
uppercase form ends in USDT becomes `base/USD`, and analogously for the
USD, EUR and GBP suffixes; any other input is returned uppercased
as-is. Stated separately from `convertToKrakenSymbol` so the refinement
between the two can be proved. -/
def krakenSymbolClaim (s : GoStr) : GoStr :=
  if containsRune s '/' then toUpperStr s
  else if hasSuffix (toUpperStr s) ("USDT".toList) then
    trimSuffix (toUpperStr s) ("USDT".toList) ++ ("/USD".toList)
  else if hasSuffix (toUpperStr s) ("USD".toList) then
    trimSuffix (toUpperStr s) ("USD".toList) ++ ("/USD".toList)
  else if hasSuffix (toUpperStr s) ("EUR".toList) then
    trimSuffix (toUpperStr s) ("EUR".toList) ++ ("/EUR".toList)
  else if hasSuffix (toUpperStr s) ("GBP".toList) then
    trimSuffix (toUpperStr s) ("GBP".toList) ++ ("/GBP".toList)
  else toUpperStr s

end Kraken

/-- The run of a reconnect routine in which every attempt fails to
re-establish the connection. -/
def allConnectAttemptsFail : Nat → Bool := fun _ => false

/-- A Binance depth frame covering ids 101-110 (prev id 100). -/
def binanceGapFrame1 : Binance.Frame :=
  ⟨"BTCUSDT", 1700000000000, 101, 110, 100, [("50000.10", "1.5")], [("50000.20", "2.0")]⟩

/-- A Binance depth frame covering ids 201-210 (prev id 200): relative
to `binanceGapFrame1` the venue sequence has a gap, since 200 ≠ 110. -/
def binanceGapFrame2 : Binance.Frame :=
  ⟨"BTCUSDT", 1700000000250, 201, 210, 200, [("50001.00", "0.7")], []⟩

/-- The Binance read loop observing the two gapped frames in order. -/
def binanceGapTrace : List Binance.Event :=
  [Binance.Event.frame binanceGapFrame1, Binance.Event.frame binanceGapFrame2]

/-- A Bybit snapshot frame with sequence number 100. -/
def bybitSnapshotFrame : Bybit.Frame :=
  ⟨"orderbook.1000.BTCUSDT", "snapshot", 1700000000000, "BTCUSDT", 100,
    [("50000.10", "1.5")], [("50000.20", "2.0")]⟩

/-- A Bybit delta frame with sequence number 101. -/
def bybitDeltaFrame1 : Bybit.Frame :=
  ⟨"orderbook.1000.BTCUSDT", "delta", 1700000000100, "BTCUSDT", 101,
    [("50000.10", "0.0")], []⟩

/-- A Bybit delta frame with sequence number 103. -/
def bybitDeltaFrame2 : Bybit.Frame :=
  ⟨"orderbook.1000.BTCUSDT", "delta", 1700000000200, "BTCUSDT", 103,
    [], [("50000.40", "0.3")]⟩

/-- A short Bybit session: the in-band snapshot followed by two deltas. -/
def bybitSampleFrames : List Bybit.Frame :=
  [bybitSnapshotFrame, bybitDeltaFrame1, bybitDeltaFrame2]

/-- Helper: the Binance read loop fed only well-formed depth frames
emits every frame's conversion, in order, without exiting, closing the
update channel, or touching a reconnect path. -/
theorem binance_readLoop_pure_frames (fs : List Binance.Frame) :
    Binance.readLoop (fs.map Binance.Event.frame) =
      ⟨fs.map Binance.convertDepthUpdate, false, false, false, 0⟩ := by
  induction fs with
  | nil => rfl
  | cons f fs ih =>
    simp only [List.map_cons, Binance.readLoop, ih]

/-- C1: the claim says the canonical update stream is closed only by
`close()` and never when a read loop exits on a transport read error or
during reconnection. The code refutes this: the Hyperliquid, Binance
and Bybit read loops all carry `defer close(e.updateChan)`, so a read
error closes the stream — for Hyperliquid even while the reconnect
routine is being spawned, the panic scenario the repository's own
2025-10-22 session log documents. Only the Kraken read loop leaves the
stream open. -/
theorem c1_update_stream_closed_by_read_loop_on_read_error :
    Hyperliquid.readLoop [Hyperliquid.Event.readFail] = ⟨[], true, true, true, 1⟩ ∧
    Binance.readLoop [Binance.Event.readFail] = ⟨[], true, true, false, 1⟩ ∧
    Bybit.readLoopFrom Bybit.initialConnState [Bybit.Event.readFail] =
      ⟨[], true, true, false, 1⟩ ∧
    Kraken.readLoopFrom Kraken.initialConnState [Kraken.Event.readErr] =
      ⟨[], true, false, true, 1⟩ :=
  ⟨rfl, rfl, rfl, rfl⟩

/-- C2 counterexample: the Binance read loop observing two frames whose
sequencing has a gap (prev id 200 after final id 110) emits both frames
unchanged — the second emitted delta's `prev_id` is 200, not the
previous delta's `final_id` 110 — and the connector neither triggers a
reconnect nor leaves the streaming loop. -/
theorem c2_counterexample_gap_passthrough :
    ¬ (((Binance.readLoop binanceGapTrace).emitted.map
          fun u => u.prevUpdateID)[1]? = some (110 : Int) ∨
        (Binance.readLoop binanceGapTrace).reconnectTriggered = true) := by
  decide

/-- C2 amended: the Binance futures connector performs no sequence-gap
detection at all — its read loop emits every decoded frame's conversion
verbatim (the sequencing triple `pu`/`U`/`u` is copied through
unchanged) and the connector never transitions to a reconnecting state
on any pure frame stream; emitted deltas are contiguous only when the
venue's frames already are. -/
theorem c2_amended_binance_no_gap_detection :
    (∀ fs : List Binance.Frame,
      Binance.readLoop (fs.map Binance.Event.frame) =
        ⟨fs.map Binance.convertDepthUpdate, false, false, false, 0⟩) ∧
    (∀ f : Binance.Frame,
      (Binance.convertDepthUpdate f).prevUpdateID = f.prevUpdateID ∧
      (Binance.convertDepthUpdate f).firstUpdateID = f.firstUpdateID ∧
      (Binance.convertDepthUpdate f).finalUpdateID = f.finalUpdateID) :=
  ⟨binance_readLoop_pure_frames, fun _ => ⟨rfl, rfl, rfl⟩⟩

/-- C3: the claim says every Hyperliquid frame after the first is
emitted with `is_snapshot = true`. The code refutes this: the struct
literal in the Hyperliquid convertDepthUpdate never sets `IsSnapshot`,
so every emitted update carries the zero value `false` — the stale-data
bug whose fix (commit 04df17e in the repository's 2025-10-22 session
log) is absent from this code. -/
theorem c3_hyperliquid_updates_not_marked_snapshot :
    (∀ b : Hyperliquid.WsBook, (Hyperliquid.convertDepthUpdate b).isSnapshot = false) ∧
    (Hyperliquid.readLoop
        [Hyperliquid.Event.l2Book ⟨"BTC", 1700000000000,
          [⟨"50000.1", "1.5"⟩], [⟨"50000.2", "2.0"⟩]⟩]).emitted.map
        (fun u => u.isSnapshot) = [false] :=
  ⟨fun _ => rfl, rfl⟩

/-- C5 counterexample: a frame that is not valid JSON surfaces as a
`ReadJSON` error on the Binance connector, and the read loop thereupon
exits and (by its deferred close) closes the update stream — it neither
stays alive nor keeps the stream open, contrary to the claim. -/
theorem c5_counterexample_binance_exits_on_malformed_frame :
    ¬ ((Binance.readLoop [Binance.Event.readFail]).exited = false ∧
       (Binance.readLoop [Binance.Event.readFail]).updateChanClosed = false) := by
  decide

/-- C5 amended: only the connectors that decode after reading drop
malformed input and continue — Kraken skips a frame that decodes as no
known shape (silently, and the loop behaves exactly as if the frame had
not arrived), and Hyperliquid skips an l2Book frame whose payload fails
to decode; but a frame that is not valid JSON is a `ReadJSON` error, on
which the Binance and Bybit read loops exit closing the update stream,
and the Hyperliquid read loop exits closing the stream and triggering
reconnection. -/
theorem c5_amended_malformed_frame_handling :
    (∀ (s : Kraken.ConnState) (es : List Kraken.Event),
      Kraken.readLoopFrom s (Kraken.Event.undecodable :: es) =
        Kraken.readLoopFrom s es) ∧
    (∀ es : List Hyperliquid.Event,
      Hyperliquid.readLoop (Hyperliquid.Event.l2BookUndecodable :: es) =
        Hyperliquid.readLoop es) ∧
    (∀ es : List Binance.Event,
      Binance.readLoop (Binance.Event.readFail :: es) = ⟨[], true, true, false, 1⟩) ∧
    (∀ (s : Bybit.ConnState) (es : List Bybit.Event),
      Bybit.readLoopFrom s (Bybit.Event.readFail :: es) = ⟨[], true, true, false, 1⟩) ∧
    (∀ es : List Hyperliquid.Event,
      Hyperliquid.readLoop (Hyperliquid.Event.readFail :: es) = ⟨[], true, true, true, 1⟩) :=
  ⟨fun _ _ => rfl, fun _ => rfl, fun _ => rfl, fun _ _ => rfl, fun _ => rfl⟩

/-- C4 counterexample: it is not the case that every connector spawns a
periodic health-probe loop — the Binance futures Connect launches only
its read loop. -/
theorem c4_counterexample_not_every_connector_probes :
    ¬ (∀ c : Exchange.ExchangeName, connectSpawnsProbeLoop c = true) := by
  intro h
  exact absurd (h Exchange.ExchangeName.Binancef) (by decide)

/-- C4 amended: only the Hyperliquid and Kraken connectors spawn a
periodic probe loop, both on a 30 s cadence; Hyperliquid's tick
triggers reconnection exactly when more than 60 s have passed since the
last message (once a message has been seen, never before one has);
Kraken's tick only sends a ping and never triggers reconnection; the
Binance and Bybit futures connectors spawn no probe loop at all. -/
theorem c4_amended_probe_behaviour :
    connectSpawnsProbeLoop Exchange.ExchangeName.Binancef = false ∧
    connectSpawnsProbeLoop Exchange.ExchangeName.Bybitf = false ∧
    connectSpawnsProbeLoop Exchange.ExchangeName.Hyperliquidf = true ∧
    connectSpawnsProbeLoop Exchange.ExchangeName.Kraken = true ∧
    probeCadenceSec Exchange.ExchangeName.Hyperliquidf = some 30 ∧
    probeCadenceSec Exchange.ExchangeName.Kraken = some 30 ∧
    (∀ n : Nat,
      Hyperliquid.pingLoopTick true n = ProbeAction.triggerReconnect ↔ 60 < n) ∧
    (∀ n : Nat, Hyperliquid.pingLoopTick false n = ProbeAction.keepRunning) ∧
    (∀ cp w : Bool, Kraken.pingLoopTick cp w ≠ ProbeAction.triggerReconnect) := by
  refine ⟨rfl, rfl, rfl, rfl, rfl, rfl, ?_, ?_, ?_⟩
  · intro n
    by_cases h : 60 < n <;> simp [Hyperliquid.pingLoopTick, h]
  · intro n
    simp [Hyperliquid.pingLoopTick]
  · intro cp w
    cases cp <;> cases w <;> decide

/-- Helper: a reconnect attempt loop with `fuel` remaining iterations
makes at most `fuel` attempts (Hyperliquid shape). -/
theorem hyperliquid_reconnectLoop_attempts_le (ok : Nat → Bool) :
    ∀ (fuel a : Nat), (Hyperliquid.reconnectLoop ok a fuel).2.1 ≤ fuel := by
  intro fuel
  induction fuel with
  | zero => intro a; simp [Hyperliquid.reconnectLoop]
  | succ n ih =>
    intro a
    by_cases h : ok a = true
    · have hr : (Hyperliquid.reconnectLoop ok a (n + 1)).2.1 = 1 := by
        simp [Hyperliquid.reconnectLoop, h]
      omega
    · have hr : (Hyperliquid.reconnectLoop ok a (n + 1)).2.1 =
          (Hyperliquid.reconnectLoop ok (a + 1) n).2.1 + 1 := by
        simp [Hyperliquid.reconnectLoop, h]
      have := ih (a + 1)
      omega

/-- Helper: a reconnect attempt loop with `fuel` remaining iterations
makes at most `fuel` attempts (Kraken shape). -/
theorem kraken_reconnectLoop_attempts_le (ok : Nat → Bool) :
    ∀ (fuel a : Nat), (Kraken.reconnectLoop ok a fuel).2.1 ≤ fuel := by
  intro fuel
  induction fuel with
  | zero => intro a; simp [Kraken.reconnectLoop]
  | succ n ih =>
    intro a
    by_cases h : ok a = true
    · have hr : (Kraken.reconnectLoop ok a (n + 1)).2.1 = 1 := by
        simp [Kraken.reconnectLoop, h]
      omega
    · have hr : (Kraken.reconnectLoop ok a (n + 1)).2.1 =
          (Kraken.reconnectLoop ok (a + 1) n).2.1 + 1 := by
        simp [Kraken.reconnectLoop, h]
      have := ih (a + 1)
      omega

/-- C6: both reconnect routines space their attempts exactly by
`min(attempt * 5 s, 30 s)`: on a run where every attempt fails,
Hyperliquid sleeps 5,10,15,20,25,30,...,30 seconds between its 10
attempts and then gives up, and Kraken does the same after its fixed
initial 5 s sleep (plus one trailing backoff after the last failure);
the backoff expressions equal `min(attempt * 5, 30)` for every spacing
position, and no run of either routine makes more than 10 attempts. -/
theorem c6_reconnect_backoff_schedule :
    Hyperliquid.reconnect allConnectAttemptsFail =
      ([5, 10, 15, 20, 25, 30, 30, 30, 30], 10, false) ∧
    Kraken.reconnect allConnectAttemptsFail =
      ([5, 5, 10, 15, 20, 25, 30, 30, 30, 30, 30], 10, false) ∧
    ((List.range 9).map fun a => Hyperliquid.backoffBeforeAttempt (a + 2)) =
      ((List.range 9).map fun a => min ((a + 1) * 5) 30) ∧
    ((List.range 9).map fun a => Kraken.backoffAfterAttempt (a + 1)) =
      ((List.range 9).map fun a => min ((a + 1) * 5) 30) ∧
    (∀ ok : Nat → Bool, (Hyperliquid.reconnect ok).2.1 ≤ 10) ∧
    (∀ ok : Nat → Bool, (Kraken.reconnect ok).2.1 ≤ 10) := by
  refine ⟨by decide, by decide, by decide, by decide, ?_, ?_⟩
  · intro ok
    exact hyperliquid_reconnectLoop_attempts_le ok 10 1
  · intro ok
    exact kraken_reconnectLoop_attempts_le ok 10 1

/-- C7: the claim says `close()` is idempotent for every connector. The
code refutes this for Kraken: the first Close succeeds and closes the
update channel, but a second Close reaches the unguarded
`close(e.updateChan)` and is the Go panic "close of closed channel" —
even though the repository's own session log says the updated Kraken
Close "prevents multiple close attempts". -/
theorem c7_kraken_close_second_call_panics :
    Kraken.Close Kraken.connectedState = Except.ok ⟨true, true, true, false, true⟩ ∧
    Kraken.Close ⟨true, true, true, false, true⟩ =
      Except.error Kraken.GoPanic.closeOfClosedChannel :=
  ⟨rfl, rfl⟩

/-- Helper: one gate event preserves the invariant that at most one
reconnect routine is past the gate, and none is when the flag is
clear. -/
theorem gate_step_preserves_inv (s : ReconnectGate.State) (e : ReconnectGate.Event)
    (h1 : s.inFlight ≤ 1) (h2 : s.reconnecting = false → s.inFlight = 0) :
    (ReconnectGate.step s e).inFlight ≤ 1 ∧
      ((ReconnectGate.step s e).reconnecting = false →
        (ReconnectGate.step s e).inFlight = 0) := by
  rcases s with ⟨r, n⟩
  cases e with
  | trigger =>
    cases r
    · have hn : n = 0 := h2 rfl
      subst hn
      simp [ReconnectGate.step, ReconnectGate.compareAndSwapFT]
    · simp only [ReconnectGate.step, ReconnectGate.compareAndSwapFT] at h1 ⊢
      simp_all
  | finish =>
    by_cases hn : 0 < n
    · simp only [ReconnectGate.step, if_pos hn]
      simp_all
    · simp only [ReconnectGate.step, if_neg hn]
      exact ⟨h1, h2⟩

/-- Helper: the gate invariant holds along any event list. -/
theorem gate_run_inv (es : List ReconnectGate.Event) :
    ∀ s : ReconnectGate.State, s.inFlight ≤ 1 →
      (s.reconnecting = false → s.inFlight = 0) →
      (es.foldl ReconnectGate.step s).inFlight ≤ 1 := by
  induction es with
  | nil => intro s h1 _; exact h1
  | cons e es ih =>
    intro s h1 h2
    have h := gate_step_preserves_inv s e h1 h2
    exact ih (ReconnectGate.step s e) h.1 h.2

/-- C8: the compare-and-set gate shared by the Hyperliquid and Kraken
reconnect routines admits at most one reconnect routine in flight along
any sequence of triggers and finishes, and a trigger that arrives while
the `reconnecting` flag is set leaves the gate state unchanged — the
second trigger returns without starting another reconnect chain. (The
Binance and Bybit futures connectors have no reconnect routine, so the
at-most-one property is vacuous there.) -/
theorem c8_reconnect_gate_at_most_one_in_flight :
    (∀ es : List ReconnectGate.Event, (ReconnectGate.run es).inFlight ≤ 1) ∧
    (∀ n : Nat,
      ReconnectGate.step ⟨true, n⟩ ReconnectGate.Event.trigger = ⟨true, n⟩) := by
  constructor
  · intro es
    exact gate_run_inv es ⟨false, 0⟩ (by decide) (fun _ => rfl)
  · intro n
    rfl

/-- Helper: a frame that survives the relevance filter prepends its
conversion to the stream of conversions from the successor state. -/
theorem bybit_convertAll_cons (s : Bybit.ConnState) (m : Bybit.Frame)
    (ms : List Bybit.Frame) (s1 : Bybit.ConnState) (u : Exchange.DepthUpdate)
    (h : Bybit.processFrame s m = (s1, some u)) :
    Bybit.convertAll s (m :: ms) = u :: Bybit.convertAll s1 ms := by
  simp [Bybit.convertAll, Bybit.readLoopFrom, h]

/-- Helper: once the Bybit connector has stored its snapshot, a run over
relevant frames converts each frame with first and final id equal to the
frame's sequence number, threads `lastSeq` so each `prev` id is the
previous frame's sequence number (starting from the incoming `lastSeq`),
and never touches the stored snapshot again. -/
theorem bybit_chain (ms : List Bybit.Frame) :
    ∀ s : Bybit.ConnState, s.snapshotReceived = true →
      (∀ m ∈ ms, m.topic ≠ "" ∧ m.symbol ≠ "") →
      (Bybit.convertAll s ms).map
          (fun u => (u.firstUpdateID, u.finalUpdateID)) =
        ms.map (fun m => (m.seqNum, m.seqNum)) ∧
      (Bybit.convertAll s ms).map (fun u => u.prevUpdateID) =
        (s.lastSeq :: ms.map fun m => m.seqNum).take ms.length ∧
      (Bybit.runState s ms).snapshotReceived = true ∧
      (Bybit.runState s ms).storedSnapshot = s.storedSnapshot := by
  induction ms with
  | nil =>
    intro s hs _
    exact ⟨rfl, rfl, hs, rfl⟩
  | cons m ms ih =>
    intro s hs hrel
    have hm := hrel m (List.mem_cons_self m ms)
    have hcond : ¬ (m.topic = "" ∨ m.symbol = "") := by
      rcases hm with ⟨h1, h2⟩
      intro hor
      rcases hor with h | h
      · exact h1 h
      · exact h2 h
    have hstep : Bybit.processFrame s m =
        (⟨m.seqNum, true, s.storedSnapshot⟩,
          some (Bybit.convertDepthUpdate m s.lastSeq)) := by
      simp [Bybit.processFrame, hcond, hs]
    have hconv : Bybit.convertAll s (m :: ms) =
        Bybit.convertDepthUpdate m s.lastSeq ::
          Bybit.convertAll ⟨m.seqNum, true, s.storedSnapshot⟩ ms :=
      bybit_convertAll_cons s m ms _ _ hstep
    have hrun : Bybit.runState s (m :: ms) =
        Bybit.runState ⟨m.seqNum, true, s.storedSnapshot⟩ ms := by
      simp [Bybit.runState, hstep]
    obtain ⟨ih1, ih2, ih3, ih4⟩ :=
      ih ⟨m.seqNum, true, s.storedSnapshot⟩ rfl
        (fun x hx => hrel x (List.mem_cons_of_mem m hx))
    refine ⟨?_, ?_, ?_, ?_⟩
    · rw [hconv, List.map_cons, ih1, List.map_cons]
      rfl
    · rw [hconv, List.map_cons, ih2]
      simp only [List.length_cons, List.map_cons, List.take_succ_cons]
      rfl
    · rw [hrun]
      exact ih3
    · rw [hrun]
      exact ih4

/-- C9: on a Bybit session whose first relevant frame is the in-band
snapshot, every converted update carries `FirstUpdateID = FinalUpdateID
= SeqNum` of its frame, and each update's `PrevUpdateID` is the
sequence number of the immediately preceding converted frame — in
particular the first delta after the snapshot gets the stored
snapshot's sequence number (the snapshot frame's own conversion also
carries its own sequence number, since storeSnapshot sets `lastSeq`
before the conversion reads it), and the stored snapshot is keyed by
the first frame's sequence number. -/
theorem c9_bybit_sequencing (f0 : Bybit.Frame) (rest : List Bybit.Frame)
    (hsnap : f0.typ = "snapshot")
    (hrel : ∀ m ∈ f0 :: rest, m.topic ≠ "" ∧ m.symbol ≠ "") :
    (Bybit.convertAll Bybit.initialConnState (f0 :: rest)).map
        (fun u => (u.firstUpdateID, u.finalUpdateID)) =
      (f0 :: rest).map (fun m => (m.seqNum, m.seqNum)) ∧
    (Bybit.convertAll Bybit.initialConnState (f0 :: rest)).map
        (fun u => u.prevUpdateID) =
      (f0.seqNum :: f0.seqNum :: rest.map fun m => m.seqNum).take
        (rest.length + 1) ∧
    (Bybit.runState Bybit.initialConnState (f0 :: rest)).storedSnapshot =
      some (Bybit.mkSnapshot f0) ∧
    (Bybit.mkSnapshot f0).lastUpdateID = f0.seqNum := by
  have hm := hrel f0 (List.mem_cons_self f0 rest)
  have hcond : ¬ (f0.topic = "" ∨ f0.symbol = "") := by
    rcases hm with ⟨h1, h2⟩
    intro hor
    rcases hor with h | h
    · exact h1 h
    · exact h2 h
  have hstep : Bybit.processFrame Bybit.initialConnState f0 =
      (⟨f0.seqNum, true, some (Bybit.mkSnapshot f0)⟩,
        some (Bybit.convertDepthUpdate f0 f0.seqNum)) := by
    simp [Bybit.processFrame, Bybit.initialConnState, hcond, hsnap]
  have hconv : Bybit.convertAll Bybit.initialConnState (f0 :: rest) =
      Bybit.convertDepthUpdate f0 f0.seqNum ::
        Bybit.convertAll ⟨f0.seqNum, true, some (Bybit.mkSnapshot f0)⟩ rest :=
    bybit_convertAll_cons _ f0 rest _ _ hstep
  have hrun : Bybit.runState Bybit.initialConnState (f0 :: rest) =
      Bybit.runState ⟨f0.seqNum, true, some (Bybit.mkSnapshot f0)⟩ rest := by
    simp [Bybit.runState, hstep]
  obtain ⟨ch1, ch2, ch3, ch4⟩ :=
    bybit_chain rest ⟨f0.seqNum, true, some (Bybit.mkSnapshot f0)⟩ rfl
      (fun x hx => hrel x (List.mem_cons_of_mem f0 hx))
  refine ⟨?_, ?_, ?_, rfl⟩
  · rw [hconv, List.map_cons, ch1, List.map_cons]
    rfl
  · rw [hconv, List.map_cons, ch2]
    simp only [List.length_cons, List.map_cons, List.take_succ_cons]
    rfl
  · rw [hrun]
    exact ch4

/-- Witness for C9: the sequencing theorem applied to a concrete Bybit
session — the snapshot frame (seq 100) followed by deltas with seq 101
and 103: first/final ids follow the frames, prev ids chain
100, 100, 101, and the stored snapshot is keyed by 100. -/
theorem c9_bybit_sequencing_witness :
    (bybitSnapshotFrame.typ = "snapshot" ∧
      (∀ m ∈ bybitSnapshotFrame :: [bybitDeltaFrame1, bybitDeltaFrame2],
        m.topic ≠ "" ∧ m.symbol ≠ "")) ∧
    ((Bybit.convertAll Bybit.initialConnState
          (bybitSnapshotFrame :: [bybitDeltaFrame1, bybitDeltaFrame2])).map
        (fun u => (u.firstUpdateID, u.finalUpdateID)) =
      (bybitSnapshotFrame :: [bybitDeltaFrame1, bybitDeltaFrame2]).map
        (fun m => (m.seqNum, m.seqNum)) ∧
    (Bybit.convertAll Bybit.initialConnState
          (bybitSnapshotFrame :: [bybitDeltaFrame1, bybitDeltaFrame2])).map
        (fun u => u.prevUpdateID) =
      (bybitSnapshotFrame.seqNum :: bybitSnapshotFrame.seqNum ::
          [bybitDeltaFrame1, bybitDeltaFrame2].map fun m => m.seqNum).take
        ([bybitDeltaFrame1, bybitDeltaFrame2].length + 1) ∧
    (Bybit.runState Bybit.initialConnState
        (bybitSnapshotFrame :: [bybitDeltaFrame1, bybitDeltaFrame2])).storedSnapshot =
      some (Bybit.mkSnapshot bybitSnapshotFrame) ∧
    (Bybit.mkSnapshot bybitSnapshotFrame).lastUpdateID =
      bybitSnapshotFrame.seqNum) :=
  ⟨⟨by decide, by decide⟩,
    c9_bybit_sequencing bybitSnapshotFrame [bybitDeltaFrame1, bybitDeltaFrame2]
      (by decide) (by decide)⟩

/-- Helper: packing a small scalar value into a character and reading
it back is the identity. -/
theorem char_toNat_ofNat_lt {m : Nat} (h : m < 55296) : (Char.ofNat m).toNat = m := by
  have hv : m.isValidChar := Or.inl h
  rw [Char.ofNat, dif_pos hv]
  rfl

/-- Helper: the basic-latin upcase is idempotent. -/
theorem char_toUpper_idem (c : Char) : (Char.toUpper c).toUpper = Char.toUpper c := by
  by_cases h : c.toNat ≥ 97 ∧ c.toNat ≤ 122
  · have h1 : Char.toUpper c = Char.ofNat (c.toNat - 32) := by
      unfold Char.toUpper
      exact if_pos h
    have h2 : (Char.ofNat (c.toNat - 32)).toNat = c.toNat - 32 :=
      char_toNat_ofNat_lt (by omega)
    have h3 : ¬ ((Char.ofNat (c.toNat - 32)).toNat ≥ 97 ∧
        (Char.ofNat (c.toNat - 32)).toNat ≤ 122) := by
      rw [h2]
      omega
    rw [h1]
    unfold Char.toUpper
    exact if_neg h3
  · have h1 : Char.toUpper c = c := by
      unfold Char.toUpper
      exact if_neg h
    rw [h1, h1]

/-- Helper: upcasing a string is idempotent. -/
theorem toUpperStr_idem (s : GoStrings.GoStr) :
    GoStrings.toUpperStr (GoStrings.toUpperStr s) = GoStrings.toUpperStr s := by
  induction s with
  | nil => rfl
  | cons c cs ih =>
    simp only [GoStrings.toUpperStr, List.map_cons, List.map_map] at ih ⊢
    rw [char_toUpper_idem]
    exact congrArg _ ih

/-- Helper: upcasing distributes over concatenation. -/
theorem toUpperStr_append (a b : GoStrings.GoStr) :
    GoStrings.toUpperStr (a ++ b) = GoStrings.toUpperStr a ++ GoStrings.toUpperStr b :=
  List.map_append _ a b

/-- Helper: trimming a suffix off an already-upcased string leaves a
string that upcasing fixes. -/
theorem toUpperStr_trimSuffix_fix (s suf : GoStrings.GoStr) :
    GoStrings.toUpperStr (GoStrings.trimSuffix (GoStrings.toUpperStr s) suf) =
      GoStrings.trimSuffix (GoStrings.toUpperStr s) suf := by
  unfold GoStrings.trimSuffix
  by_cases h : GoStrings.hasSuffix (GoStrings.toUpperStr s) suf = true
  · rw [if_pos h]
    unfold GoStrings.toUpperStr
    rw [List.map_take]
    exact congrArg _ (toUpperStr_idem s)
  · rw [if_neg h]
    exact toUpperStr_idem s

/-- Helper: upcasing fixes a trimmed-and-requoted branch result when it
fixes the appended literal. -/
theorem toUpperStr_branch_fix (s suf lit : GoStrings.GoStr)
    (hlit : GoStrings.toUpperStr lit = lit) :
    GoStrings.toUpperStr (GoStrings.trimSuffix (GoStrings.toUpperStr s) suf ++ lit) =
      GoStrings.trimSuffix (GoStrings.toUpperStr s) suf ++ lit := by
  rw [toUpperStr_append, toUpperStr_trimSuffix_fix, hlit]

/-- C10: convertToKrakenSymbol is total and deterministic by
construction; it agrees with the claim's description
(`krakenSymbolClaim`) on every input — the code's extra not-USDT guard
on the USD branch is redundant in the else of the USDT test — and its
result is always an uppercase string (a fixed point of upcasing). -/
theorem c10_convertToKrakenSymbol_spec :
    ∀ s : GoStrings.GoStr,
      Kraken.convertToKrakenSymbol s = Kraken.krakenSymbolClaim s ∧
      GoStrings.toUpperStr (Kraken.convertToKrakenSymbol s) =
        Kraken.convertToKrakenSymbol s := by
  intro s
  constructor
  · by_cases h0 : GoStrings.containsRune s '/' = true
    · simp [Kraken.convertToKrakenSymbol, Kraken.krakenSymbolClaim, h0]
    · by_cases h1 :
          GoStrings.hasSuffix (GoStrings.toUpperStr s) (['U', 'S', 'D', 'T']) = true
      · simp [Kraken.convertToKrakenSymbol, Kraken.krakenSymbolClaim, h0, h1]
      · have hf :
            GoStrings.hasSuffix (GoStrings.toUpperStr s) (['U', 'S', 'D', 'T']) = false := by
          rwa [Bool.not_eq_true] at h1
        simp [Kraken.convertToKrakenSymbol, Kraken.krakenSymbolClaim, h0, hf]
  · unfold Kraken.convertToKrakenSymbol
    split
    · exact toUpperStr_idem s
    · split
      · exact toUpperStr_branch_fix s _ _ (by decide)
      · split
        · exact toUpperStr_branch_fix s _ _ (by decide)
        · split
          · exact toUpperStr_branch_fix s _ _ (by decide)
          · split
            · exact toUpperStr_branch_fix s _ _ (by decide)
            · exact toUpperStr_idem s
